import Mathlib

/-!
# Verification of the next-starter authorization pipeline

Shallow embedding of the auth-relevant code of the `next-starter` repository:
the edge proxy (`proxy.ts`), the auth utilities (`lib/auth-utils.ts`), the
`authorized` middleware callback (auth configuration), the server actions
(`updateProfile`, `deleteAccount`, `getUserStats`) and the settings API route
(`app/api/user/settings/route.ts`), together with the persisted `Account`
records they read and write.

Conventions: the Auth.js session is an `Option Session`; `session?.user`
becomes `resolveUser`; thrown JS errors become `Except` values; the Prisma
user table becomes a list of `Account` records with an explicit unique-email
constraint; timestamps are integer milliseconds since the epoch.
-/

namespace NextStarter

/-- A session user as exposed by Auth.js (`session.user`). -/
structure SessionUser where
  id : String
  name : Option String
  email : Option String
deriving Repr, DecidableEq

/-- An Auth.js session. `user` is optional, matching the `session?.user`
checks in the source. -/
structure Session where
  user : Option SessionUser
deriving Repr, DecidableEq

/-- JS `session?.user`: the user of a possibly-absent session. -/
def resolveUser (sess : Option Session) : Option SessionUser :=
  sess.bind (·.user)

/-- A persisted `User` row of the Prisma schema (called Account in the spec):
id, optional name, optional email, creation timestamp (ms since epoch). -/
structure Account where
  id : String
  name : Option String
  email : Option String
  createdAt : Int
deriving Repr, DecidableEq

/-- The persisted user table. -/
abbrev Db := List Account

/-- Embeds `prisma.user.findUnique` by id. -/
def findUser (db : Db) (id : String) : Option Account :=
  db.find? (fun a => a.id == id)

/-! ## Edge proxy (`proxy.ts`) -/

/-- From `proxy.ts`: authentication routes that bypass the proxy check. -/
def authRoutes : List String :=
  ["/auth/signin", "/auth/error", "/auth/signout", "/api/auth"]

/-- From `proxy.ts`: public routes; currently empty, all routes require auth. -/
def publicRoutes : List String := []

/-- JS `a.startsWith(b)`, expressed over the character lists so that it
computes inside the kernel. -/
def strStartsWith (s pre : String) : Bool :=
  pre.data.isPrefixOf s.data

/-- From `proxy.ts`, `isRouteMatch`: exact match, or prefix match when the listed
route starts with `/api/` or with `/auth`. -/
def isRouteMatch (pathname : String) (routes : List String) : Bool :=
  routes.any fun route =>
    pathname == route
    || (strStartsWith route "/api/" && strStartsWith pathname route)
    || (strStartsWith route "/auth" && strStartsWith pathname route)

/-- The proxy's response: forward the request (`NextResponse.next()`) or
redirect to `path` carrying `callbackUrl` as a query parameter. -/
inductive ProxyResponse where
  | next
  | redirect (path : String) (callbackUrl : String)
deriving Repr, DecidableEq

/-- From `proxy.ts`, `proxy`: allow auth routes and public routes; otherwise
resolve the session and redirect to `/auth/signin?callbackUrl=pathname`
when no user resolves, else forward. -/
def proxy (pathname : String) (session : Option Session) : ProxyResponse :=
  if isRouteMatch pathname authRoutes then .next
  else if isRouteMatch pathname publicRoutes then .next
  else
    match resolveUser session with
    | none => .redirect "/auth/signin" pathname
    | some _ => .next

/-- The `authorized` middleware callback of the auth configuration variant
embedded next to the sign-in form: allow the home page `/` without
authentication, require a session (`!!auth`) everywhere else. -/
def authorized (pathname : String) (auth : Option Session) : Bool :=
  if pathname = "/" then true else auth.isSome

/-! ## Auth utilities (`lib/auth-utils.ts`) -/

/-- A thrown `AuthenticationError` (`error.name === "AuthenticationError"`). -/
inductive AuthErr where
  | authenticationError (message : String)
deriving Repr, DecidableEq

/-- Embeds `requireAuth`: return the session, or throw `AuthenticationError` when
`session?.user` is absent. -/
def requireAuth (sess : Option Session) : Except AuthErr Session :=
  match sess with
  | none => .error (.authenticationError "You must be signed in to access this resource")
  | some s =>
    match s.user with
    | none => .error (.authenticationError "You must be signed in to access this resource")
    | some _ => .ok s

/-- Embeds `requireUser`: `requireAuth` then `session.user`. -/
def requireUser (sess : Option Session) : Except AuthErr SessionUser :=
  match requireAuth sess with
  | .error e => .error e
  | .ok s =>
    match s.user with
    | some u => .ok u
    | none => .error (.authenticationError "You must be signed in to access this resource")

/-- Result of `requireApiAuth`: a 401 error response, or the session user. -/
inductive ApiAuthResult where
  | errorResponse (status : Nat) (message : String)
  | ok (user : SessionUser)
deriving Repr, DecidableEq

/-- Embeds `requireApiAuth`: resolve the session; return a 401 JSON response when
no user resolves, else the user. -/
def requireApiAuth (sess : Option Session) : ApiAuthResult :=
  match resolveUser sess with
  | none => .errorResponse 401 "Authentication required"
  | some u => .ok u

/-! ## Persistence layer (Prisma operations used by the guarded code) -/

/-- A Prisma error surfaced to the handlers: record-not-found on update or
delete of a missing row, or a unique-constraint violation. -/
inductive DbError where
  | recordNotFound
  | uniqueConstraint
deriving Repr, DecidableEq

/-- Fields of a `prisma.user.update` `data` object: `none` means the field is
omitted (JS `undefined` spread away), `some s` means it is set to `s`. -/
structure UserPatch where
  name : Option String
  email : Option String
deriving Repr, DecidableEq

/-- Apply a patch to one account row. -/
def applyPatch (a : Account) (p : UserPatch) : Account :=
  { a with
    name := match p.name with | some n => some n | none => a.name
    email := match p.email with | some e => some e | none => a.email }

/-- Whether setting the patched email on account `id` collides with a
different account's email. Modelled from the spec: the `email` column of the
Prisma schema (not under src/) is unique when present, so such an update
throws a unique-constraint error. -/
def emailConflict (db : Db) (id : String) (p : UserPatch) : Bool :=
  match p.email with
  | none => false
  | some e => db.any (fun a => a.id != id && a.email == some e)

/-- Embeds `prisma.user.update` on one id: fails with
record-not-found when no row has `id`, with a unique-constraint error when
the patch sets another account's email, and otherwise returns the updated
row together with the new table. -/
def dbUpdateUser (db : Db) (id : String) (p : UserPatch) :
    Except DbError (Account × Db) :=
  match findUser db id with
  | none => .error .recordNotFound
  | some target =>
    if emailConflict db id p then .error .uniqueConstraint
    else .ok (applyPatch target p,
      db.map (fun a => if a.id == id then applyPatch a p else a))

/-- Embeds `prisma.user.delete` inside the transaction: fails
with record-not-found when no row has `id`, else removes the row. -/
def dbDeleteUser (db : Db) (id : String) : Except DbError Db :=
  match findUser db id with
  | none => .error .recordNotFound
  | some _ => .ok (db.filter (fun a => a.id != id))

/-! ## Server actions (`app/actions/user-actions.ts`) -/

/-- The `ActionResult<T>` discriminated union:
`{ success: true, data }` or `{ success: false, error }`. -/
inductive ActionResult (T : Type) where
  | success (data : T)
  | failure (error : String)
deriving Repr, DecidableEq

/-- Outcome of `updateProfileSchema.safeParse({ name })` for
`z.object({ name: z.string().min(1, "Name must not be empty").max(100, "Name too long") })`,
applied to `formData.get("name")` (a string, or null when absent). -/
inductive NameValidation where
  | valid (name : String)
  | invalid (message : String)
deriving Repr, DecidableEq

/-- Validate the profile name as the zod schema does. -/
def validateProfileName : Option String → NameValidation
  | none => .invalid "Expected string, received null"
  | some s =>
    if s.length < 1 then .invalid "Name must not be empty"
    else if s.length > 100 then .invalid "Name too long"
    else .valid s

/-- The `data` payload of a successful `updateProfile`. -/
structure ProfileData where
  name : String
  email : String
deriving Repr, DecidableEq

/-- Server action `updateProfile`: require a user (Layer 3), validate the
form name, update the session user's own row, and map every thrown error to
a `{ success: false }` result; the catch block distinguishes
`AuthenticationError` from other errors. Returns the action result together
with the resulting table. -/
def updateProfile (db : Db) (sess : Option Session) (formName : Option String) :
    ActionResult ProfileData × Db :=
  match requireUser sess with
  | .error _ => (.failure "You must be signed in to update your profile", db)
  | .ok user =>
    match validateProfileName formName with
    | .invalid msg => (.failure msg, db)
    | .valid n =>
      match dbUpdateUser db user.id { name := some n, email := none } with
      | .error _ => (.failure "Failed to update profile. Please try again.", db)
      | .ok (updated, db') =>
        (.success { name := updated.name.getD "", email := updated.email.getD "" }, db')

/-- The `data` payload of a successful `deleteAccount`. -/
structure DeleteData where
  deleted : Bool
deriving Repr, DecidableEq

/-- Server action `deleteAccount`: require a user, delete the session user's
own row in a transaction, and map every thrown error to a failure result. -/
def deleteAccount (db : Db) (sess : Option Session) :
    ActionResult DeleteData × Db :=
  match requireUser sess with
  | .error _ => (.failure "You must be signed in to delete your account", db)
  | .ok user =>
    match dbDeleteUser db user.id with
    | .error _ => (.failure "Failed to delete account. Please try again.", db)
    | .ok db' => (.success { deleted := true }, db')

/-- The `data` payload of a successful `getUserStats`:
`accountAge` in whole days and the never-populated `lastSignIn`. -/
structure StatsData where
  accountAge : Int
  lastSignIn : Option Int
deriving Repr, DecidableEq

/-- Server action `getUserStats` (read-only): require authentication, look
the user up, and report `Math.floor((Date.now() - createdAt) / 86400000)`
as `accountAge` and `null` as `lastSignIn`. `now` is `Date.now()` in ms.
The unreachable `session.user` dereference of a userless session lands in
the generic catch. -/
def getUserStats (db : Db) (sess : Option Session) (now : Int) :
    ActionResult StatsData :=
  match requireAuth sess with
  | .error _ => .failure "You must be signed in to view stats"
  | .ok s =>
    match s.user with
    | none => .failure "Failed to fetch stats"
    | some u =>
      match findUser db u.id with
      | none => .failure "User not found"
      | some acct =>
        .success
          { accountAge := Int.fdiv (now - acct.createdAt) 86400000
            lastSignIn := none }

/-! ## Settings API route (`app/api/user/settings/route.ts`, `PUT`) -/

/-- A JSON field of the parsed request body: absent, a string, or present
with a non-string value. -/
inductive JsonField where
  | absent
  | str (s : String)
  | nonString
deriving Repr, DecidableEq

/-- The parsed JSON body of a `PUT /api/user/settings` request. -/
structure SettingsBody where
  name : JsonField
  email : JsonField
deriving Repr, DecidableEq

/-- Abstraction of zod's `z.string().email()` check: exactly one `@`
separating a non-empty local part from a domain that contains a dot and does
not start or end with one. -/
def isEmail (s : String) : Bool :=
  let cs := s.data
  let localPart := cs.takeWhile (· != '@')
  let domain := (cs.dropWhile (· != '@')).drop 1
  cs.count '@' == 1
    && localPart != [] && domain.contains '.'
    && domain.headD '@' != '.' && domain.getLastD '@' != '.'

/-- Outcome of `updateSettingsSchema.safeParse(body)` for
`z.object({ name: z.string().min(1).max(100).optional(), email: z.string().email().optional() })`:
the validated optional fields, or the field-level error details. -/
inductive SettingsValidation where
  | valid (name : Option String) (email : Option String)
  | invalid (fieldErrors : List String)
deriving Repr, DecidableEq

/-- Validate one optional string field. -/
def validateOptField (f : JsonField) (check : String → Bool) (emsg : String) :
    Except String (Option String) :=
  match f with
  | .absent => .ok none
  | .str s => if check s then .ok (some s) else .error emsg
  | .nonString => .error emsg

/-- Validate the settings body as the zod schema does, collecting
field-level errors. -/
def validateSettings (b : SettingsBody) : SettingsValidation :=
  let nameRes := validateOptField b.name
    (fun s => decide (1 ≤ s.length) && decide (s.length ≤ 100)) "name: invalid"
  let emailRes := validateOptField b.email isEmail "email: invalid"
  match nameRes, emailRes with
  | .ok n, .ok e => .valid n e
  | .error en, .ok _ => .invalid [en]
  | .ok _, .error ee => .invalid [ee]
  | .error en, .error ee => .invalid [en, ee]

/-- The settings route's response, by the branch taken in the handler. -/
inductive PutResponse where
  | unauthorized
  | badRequest (details : List String)
  | conflict
  | serverError
  | ok (id : String) (name : Option String) (email : Option String)
deriving Repr, DecidableEq

/-- HTTP status of each settings-route response. -/
def putStatus : PutResponse → Nat
  | .unauthorized => 401
  | .badRequest _ => 400
  | .conflict => 409
  | .serverError => 500
  | .ok _ _ _ => 200

/-- Embeds `PUT /api/user/settings`: Layer-2 auth check first (401), then zod
validation (400 with field errors), then update of the session user's own
row; a unique-constraint error becomes 409 "Email already in use", any other
thrown error becomes 500. Returns the response with the resulting table. -/
def settingsPUT (db : Db) (sess : Option Session) (body : SettingsBody) :
    PutResponse × Db :=
  match requireApiAuth sess with
  | .errorResponse _ _ => (.unauthorized, db)
  | .ok user =>
    match validateSettings body with
    | .invalid errs => (.badRequest errs, db)
    | .valid n e =>
      match dbUpdateUser db user.id { name := n, email := e } with
      | .error .uniqueConstraint => (.conflict, db)
      | .error .recordNotFound => (.serverError, db)
      | .ok (u, db') => (.ok u.id u.name u.email, db')

/-! ## Authentication-ceremony signature counter -/

/-- Modelled from the spec: the WebAuthn authentication ceremony's
signature-counter check. The ceremony engine lives in the Auth.js passkey
provider (a dependency configured in `auth.ts`), not under src/; the spec
requires: accept the assertion only when the presented counter is strictly
greater than the stored one, or both are zero (counter-less authenticators);
on acceptance, store the presented counter. Returns the new stored counter
on success, `none` on rejection. -/
def verifyCounterStep (stored presented : Nat) : Option Nat :=
  if stored < presented ∨ (presented = 0 ∧ stored = 0) then some presented
  else none

/-! ## Concrete fixtures used by the witnesses -/

/-- A concrete account used in witnesses. -/
def aliceAcct : Account :=
  { id := "a1", name := some "Alice", email := some "alice@example.com", createdAt := 0 }

/-- A second concrete account with a distinct id and email. -/
def bobAcct : Account :=
  { id := "b1", name := some "Bob", email := some "bob@example.com", createdAt := 0 }

/-- The session user of `aliceAcct`. -/
def aliceUser : SessionUser :=
  { id := "a1", name := some "Alice", email := some "alice@example.com" }

/-- A valid session for `aliceAcct`. -/
def aliceSession : Option Session := some { user := some aliceUser }

/-! ## Helper lemmas about session resolution -/

/-- With no resolvable user, `requireAuth` throws `AuthenticationError`. -/
theorem requireAuth_of_resolve_none {sess : Option Session}
    (h : resolveUser sess = none) :
    requireAuth sess =
      .error (.authenticationError "You must be signed in to access this resource") := by
  cases sess with
  | none => rfl
  | some s =>
    cases hu : s.user with
    | none => simp [requireAuth, hu]
    | some u => simp [resolveUser, hu] at h

/-- With a resolvable user, `requireAuth` returns the session. -/
theorem requireAuth_of_resolve_some {sess : Option Session} {u : SessionUser}
    (h : resolveUser sess = some u) :
    ∃ s, sess = some s ∧ s.user = some u ∧ requireAuth sess = .ok s := by
  cases sess with
  | none => simp [resolveUser] at h
  | some s =>
    have hu : s.user = some u := by simpa [resolveUser] using h
    exact ⟨s, rfl, hu, by simp [requireAuth, hu]⟩

/-- With no resolvable user, `requireUser` throws `AuthenticationError`. -/
theorem requireUser_of_resolve_none {sess : Option Session}
    (h : resolveUser sess = none) :
    requireUser sess =
      .error (.authenticationError "You must be signed in to access this resource") := by
  simp [requireUser, requireAuth_of_resolve_none h]

/-- With a resolvable user, `requireUser` returns that user. -/
theorem requireUser_of_resolve_some {sess : Option Session} {u : SessionUser}
    (h : resolveUser sess = some u) :
    requireUser sess = .ok u := by
  obtain ⟨s, rfl, hu, hra⟩ := requireAuth_of_resolve_some h
  simp [requireUser, hra, hu]

/-- With no resolvable user, `requireApiAuth` returns the 401 response. -/
theorem requireApiAuth_of_resolve_none {sess : Option Session}
    (h : resolveUser sess = none) :
    requireApiAuth sess = .errorResponse 401 "Authentication required" := by
  simp [requireApiAuth, h]

/-- With a resolvable user, `requireApiAuth` returns that user. -/
theorem requireApiAuth_of_resolve_some {sess : Option Session} {u : SessionUser}
    (h : resolveUser sess = some u) :
    requireApiAuth sess = .ok u := by
  simp [requireApiAuth, h]

/-- The public-routes list is empty, so it never matches. -/
theorem isRouteMatch_publicRoutes (p : String) : isRouteMatch p publicRoutes = false := rfl

/-! ## Claim theorems -/

/-- C1: with no valid session, each of the three authorization checkpoints
independently denies — the edge proxy (on any path outside its allow-list)
redirects to the sign-in page, the API route guard returns a 401 response,
and the server-action guard returns a failure result leaving the table
unchanged. Each conjunct is derived from that checkpoint's own session
resolution alone. -/
theorem c1_no_session_all_checkpoints_deny
    (pathname : String) (sess : Option Session) (db : Db) (formName : Option String)
    (hroute : isRouteMatch pathname authRoutes = false)
    (hsess : resolveUser sess = none) :
    proxy pathname sess = .redirect "/auth/signin" pathname ∧
    requireApiAuth sess = .errorResponse 401 "Authentication required" ∧
    updateProfile db sess formName =
      (.failure "You must be signed in to update your profile", db) := by
  refine ⟨?_, requireApiAuth_of_resolve_none hsess, ?_⟩
  · simp [proxy, hroute, isRouteMatch_publicRoutes, hsess]
  · simp [updateProfile, requireUser_of_resolve_none hsess]

/-- Witness for C1 at the protected path `/dashboard` with an absent
session and a one-account table. -/
theorem c1_witness :
    proxy "/dashboard" none = .redirect "/auth/signin" "/dashboard" ∧
    requireApiAuth none = .errorResponse 401 "Authentication required" ∧
    updateProfile [aliceAcct] none (some "Mallory") =
      (.failure "You must be signed in to update your profile", [aliceAcct]) :=
  c1_no_session_all_checkpoints_deny "/dashboard" none [aliceAcct] (some "Mallory")
    (by decide) rfl

/-- C4: on a path outside the proxy's allow-list, an absent session yields a
redirect to the sign-in endpoint whose callback parameter is the request
path, and a resolved session lets the request through unchanged. -/
theorem c4_edge_checkpoint_decision
    (pathname : String) (sess : Option Session)
    (hroute : isRouteMatch pathname authRoutes = false) :
    (resolveUser sess = none →
      proxy pathname sess = .redirect "/auth/signin" pathname) ∧
    (∀ u, resolveUser sess = some u → proxy pathname sess = .next) := by
  constructor
  · intro h
    simp [proxy, hroute, isRouteMatch_publicRoutes, h]
  · intro u h
    simp [proxy, hroute, isRouteMatch_publicRoutes, h]

/-- Witness for C4 at `/dashboard`, once with no session and once with
Alice's session. -/
theorem c4_witness :
    proxy "/dashboard" none = .redirect "/auth/signin" "/dashboard" ∧
    proxy "/dashboard" aliceSession = .next :=
  ⟨(c4_edge_checkpoint_decision "/dashboard" none (by decide)).1 rfl,
   (c4_edge_checkpoint_decision "/dashboard" aliceSession (by decide)).2 aliceUser rfl⟩

/-- C5: a profile update with no resolvable session returns the typed
authentication failure and returns the account table unchanged. -/
theorem c5_update_profile_unauthenticated
    (db : Db) (sess : Option Session) (formName : Option String)
    (hsess : resolveUser sess = none) :
    updateProfile db sess formName =
      (.failure "You must be signed in to update your profile", db) := by
  simp [updateProfile, requireUser_of_resolve_none hsess]

/-- Witness for C5: no session, a well-formed name, a populated table —
the failure result and the untouched record of `aliceAcct`. -/
theorem c5_witness :
    updateProfile [aliceAcct, bobAcct] (some { user := none }) (some "Eve") =
      (.failure "You must be signed in to update your profile", [aliceAcct, bobAcct]) :=
  c5_update_profile_unauthenticated [aliceAcct, bobAcct] (some { user := none })
    (some "Eve") rfl

/-- C2 counterexample: the home page `/` is outside the allow-list, yet the
`authorized` middleware callback grants it with no session at all; and the
individual page `/auth/signin` is matched prefix-wise, not exactly — the
non-listed path `/auth/signinX` bypasses the proxy checkpoint. -/
theorem c2_counterexample :
    isRouteMatch "/" authRoutes = false ∧
    isRouteMatch "/" publicRoutes = false ∧
    authorized "/" none = true ∧
    isRouteMatch "/auth/signinX" authRoutes = true ∧
    proxy "/auth/signinX" none = .next := by
  decide

/-- C2 amended: the proxy checkpoint uses the fixed allow-list with
prefix matching for every listed route (each listed route starts with
`/auth` or `/api/`, so individual pages are prefix-matched too), and every
path outside the allow-list requires authentication there; the `authorized`
callback checkpoint instead exempts the home page `/` — it grants `/`
without any session and requires a session exactly on every other path. -/
theorem c2_amended_route_classification :
    (∀ (p r : String), r ∈ authRoutes → strStartsWith p r = true →
      isRouteMatch p authRoutes = true) ∧
    (∀ (p : String) (sess : Option Session), isRouteMatch p authRoutes = false →
      resolveUser sess = none → proxy p sess = .redirect "/auth/signin" p) ∧
    authorized "/" none = true ∧
    (∀ (p : String) (sess : Option Session), p ≠ "/" →
      authorized p sess = sess.isSome) := by
  have h1 : strStartsWith "/auth/signin" "/auth" = true := by decide
  have h2 : strStartsWith "/auth/error" "/auth" = true := by decide
  have h3 : strStartsWith "/auth/signout" "/auth" = true := by decide
  have h4 : strStartsWith "/api/auth" "/api/" = true := by decide
  refine ⟨?_, ?_, by decide, ?_⟩
  · intro p r hr hpre
    have hr' : r = "/auth/signin" ∨ r = "/auth/error" ∨ r = "/auth/signout" ∨
        r = "/api/auth" := by simpa [authRoutes] using hr
    rcases hr' with rfl | rfl | rfl | rfl <;>
      simp [isRouteMatch, authRoutes, hpre, h1, h2, h3, h4]
  · intro p sess hroute hsess
    simp [proxy, hroute, isRouteMatch_publicRoutes, hsess]
  · intro p sess hp
    simp [authorized, hp]

/-- Witness for C2's amended claim: a nested sub-path of the sign-in page is
allow-listed by prefix, `/dashboard` is denied without a session by the
proxy, and the `authorized` callback denies `/dashboard` without a session. -/
theorem c2_amended_witness :
    isRouteMatch "/auth/signin/nested" authRoutes = true ∧
    proxy "/settings" none = .redirect "/auth/signin" "/settings" ∧
    authorized "/settings" none = false := by
  have h := c2_amended_route_classification
  exact ⟨h.1 "/auth/signin/nested" "/auth/signin" (by decide) (by decide),
    h.2.1 "/settings" none (by decide) rfl,
    (h.2.2.2 "/settings" none (by decide)).trans rfl⟩

/-- C6 (ceremony engine modelled from the spec): a successful authentication
step makes the stored counter strictly larger, or leaves both counters at
zero; and any assertion presenting a counter at most the stored nonzero
counter is rejected. -/
theorem c6_counter_check (stored presented : Nat) :
    (∀ newStored, verifyCounterStep stored presented = some newStored →
      stored < newStored ∨ (stored = 0 ∧ newStored = 0)) ∧
    (stored ≠ 0 → presented ≤ stored → verifyCounterStep stored presented = none) := by
  constructor
  · intro n hn
    unfold verifyCounterStep at hn
    by_cases h : stored < presented ∨ (presented = 0 ∧ stored = 0)
    · rw [if_pos h] at hn
      cases hn
      rcases h with h | ⟨h1, h2⟩
      · exact Or.inl h
      · exact Or.inr ⟨h2, h1⟩
    · rw [if_neg h] at hn
      cases hn
  · intro h0 hle
    unfold verifyCounterStep
    rw [if_neg]
    rintro (hlt | ⟨-, hz⟩)
    · exact absurd hle (not_le.mpr hlt)
    · exact h0 hz

/-- Witness for C6: a replayed assertion counter equal to the stored
nonzero value 5 is rejected. -/
theorem c6_witness : verifyCounterStep 5 5 = none :=
  (c6_counter_check 5 5).2 (by decide) (by decide)

/-- Patching a row never changes its id. -/
theorem applyPatch_id (a : Account) (p : UserPatch) : (applyPatch a p).id = a.id := rfl

/-- Patching only the row with id `uid` leaves all rows with a different id
`bid` untouched. -/
theorem filter_map_patch (l : Db) (uid bid : String) (p : UserPatch)
    (hneq : bid ≠ uid) :
    (l.map (fun a => if a.id == uid then applyPatch a p else a)).filter
        (fun a => a.id == bid) =
      l.filter (fun a => a.id == bid) := by
  induction l with
  | nil => rfl
  | cons a l ih =>
    simp only [List.map_cons, List.filter_cons]
    by_cases h : a.id = uid
    · have hpatch : (if (a.id == uid) then applyPatch a p else a) = applyPatch a p := by
        simp [h]
      have hcond : (a.id == bid) = false := by
        rw [h]
        exact beq_eq_false_iff_ne.mpr fun e => hneq e.symm
      rw [hpatch]
      simp only [applyPatch_id, hcond, ih, Bool.false_eq_true, if_false]
    · have hpatch : (if (a.id == uid) then applyPatch a p else a) = a := by
        simp [h]
      rw [hpatch, ih]

/-- Deleting the row with id `uid` leaves all rows with a different id
`bid` untouched. -/
theorem filter_filter_ne (l : Db) (uid bid : String) (hneq : bid ≠ uid) :
    (l.filter (fun a => a.id != uid)).filter (fun a => a.id == bid) =
      l.filter (fun a => a.id == bid) := by
  induction l with
  | nil => rfl
  | cons a l ih =>
    by_cases h : a.id = uid
    · have h1 : (a.id != uid) = false := by simp [h]
      have h2 : (a.id == bid) = false := by
        rw [h]
        exact beq_eq_false_iff_ne.mpr fun e => hneq e.symm
      simp [List.filter_cons, h1, h2, ih]
    · have h1 : (a.id != uid) = true := by simp [h]
      simp [List.filter_cons, h1, ih]

/-- A successful `dbUpdateUser` on `uid` leaves all rows with any other id
untouched. -/
theorem dbUpdateUser_other_rows (db : Db) (uid bid : String) (p : UserPatch)
    (hneq : bid ≠ uid) (res : Account × Db) (hres : dbUpdateUser db uid p = .ok res) :
    res.2.filter (fun a => a.id == bid) = db.filter (fun a => a.id == bid) := by
  unfold dbUpdateUser at hres
  cases hfind : findUser db uid with
  | none =>
    rw [hfind] at hres
    exact absurd hres (by simp)
  | some t =>
    simp only [hfind] at hres
    by_cases hc : emailConflict db uid p = true
    · rw [if_pos hc] at hres; cases hres
    · rw [if_neg hc] at hres
      cases hres
      exact filter_map_patch db uid bid p hneq

/-- C3: every mutation is keyed to the resolved session's account id — no
target-account parameter exists — so for any account id other than the
session user's, the rows carrying that id are exactly the same before and
after `updateProfile`, the settings `PUT`, and `deleteAccount`: a session
never mutates another account's data. -/
theorem c3_mutations_touch_only_own_account
    (db : Db) (sess : Option Session) (u : SessionUser) (bid : String)
    (formName : Option String) (body : SettingsBody)
    (hsess : resolveUser sess = some u) (hneq : bid ≠ u.id) :
    (updateProfile db sess formName).2.filter (fun a => a.id == bid) =
        db.filter (fun a => a.id == bid) ∧
    (settingsPUT db sess body).2.filter (fun a => a.id == bid) =
        db.filter (fun a => a.id == bid) ∧
    (deleteAccount db sess).2.filter (fun a => a.id == bid) =
        db.filter (fun a => a.id == bid) := by
  refine ⟨?_, ?_, ?_⟩
  · cases hval : validateProfileName formName with
    | invalid msg =>
      simp only [updateProfile, requireUser_of_resolve_some hsess, hval]
    | valid n =>
      cases hupd : dbUpdateUser db u.id { name := some n, email := none } with
      | error e =>
        simp only [updateProfile, requireUser_of_resolve_some hsess, hval, hupd]
      | ok res =>
        obtain ⟨updated, db2⟩ := res
        simp only [updateProfile, requireUser_of_resolve_some hsess, hval, hupd]
        exact dbUpdateUser_other_rows db u.id bid _ hneq (updated, db2) hupd
  · cases hval : validateSettings body with
    | invalid errs =>
      simp only [settingsPUT, requireApiAuth_of_resolve_some hsess, hval]
    | valid n e =>
      cases hupd : dbUpdateUser db u.id { name := n, email := e } with
      | error err =>
        cases err <;>
          simp only [settingsPUT, requireApiAuth_of_resolve_some hsess, hval, hupd]
      | ok res =>
        obtain ⟨updated, db2⟩ := res
        simp only [settingsPUT, requireApiAuth_of_resolve_some hsess, hval, hupd]
        exact dbUpdateUser_other_rows db u.id bid _ hneq (updated, db2) hupd
  · cases hdel : dbDeleteUser db u.id with
    | error e =>
      simp only [deleteAccount, requireUser_of_resolve_some hsess, hdel]
    | ok db' =>
      simp only [deleteAccount, requireUser_of_resolve_some hsess, hdel]
      unfold dbDeleteUser at hdel
      cases hfind : findUser db u.id with
      | none =>
        rw [hfind] at hdel
        exact absurd hdel (by simp)
      | some t =>
        simp only [hfind] at hdel
        injection hdel with h
        rw [← h]
        exact filter_filter_ne db u.id bid hneq

/-- Witness for C3: with Alice's session, none of the three mutations
touches Bob's record. -/
theorem c3_witness :
    (updateProfile [aliceAcct, bobAcct] aliceSession (some "Alicia")).2.filter
        (fun a => a.id == "b1") = [bobAcct] ∧
    (settingsPUT [aliceAcct, bobAcct] aliceSession
        { name := .str "Alicia", email := .absent }).2.filter
        (fun a => a.id == "b1") = [bobAcct] ∧
    (deleteAccount [aliceAcct, bobAcct] aliceSession).2.filter
        (fun a => a.id == "b1") = [bobAcct] := by
  have h := c3_mutations_touch_only_own_account [aliceAcct, bobAcct] aliceSession
    aliceUser "b1" (some "Alicia") { name := .str "Alicia", email := .absent }
    rfl (by decide)
  have hbase : ([aliceAcct, bobAcct] : Db).filter (fun a => a.id == "b1") = [bobAcct] := by
    decide
  exact ⟨h.1.trans hbase, h.2.1.trans hbase, h.2.2.trans hbase⟩

/-- A failed settings validation always carries at least one field error. -/
theorem validateSettings_invalid_ne_nil (b : SettingsBody) (errs : List String)
    (h : validateSettings b = .invalid errs) : errs ≠ [] := by
  unfold validateSettings at h
  cases hn : validateOptField b.name
      (fun s => decide (1 ≤ s.length) && decide (s.length ≤ 100)) "name: invalid" with
  | ok n =>
    cases he : validateOptField b.email isEmail "email: invalid" with
    | ok e =>
      simp only [hn, he] at h
      exact absurd h (by simp)
    | error ee =>
      simp only [hn, he] at h
      injection h with h2
      rw [← h2]
      simp
  | error en =>
    cases he : validateOptField b.email isEmail "email: invalid" with
    | ok e =>
      simp only [hn, he] at h
      injection h with h2
      rw [← h2]
      simp
    | error ee =>
      simp only [hn, he] at h
      injection h with h2
      rw [← h2]
      simp

/-- C7: the settings endpoint checks authentication before input validation —
with no resolvable session every body (malformed or not) gets the 401
response, never a 400; with a session, a schema-invalid body gets the 400
response carrying its nonempty field-level details, and the table is
untouched. -/
theorem c7_auth_before_validation
    (db : Db) (sess : Option Session) (body : SettingsBody) :
    (resolveUser sess = none →
      settingsPUT db sess body = (.unauthorized, db) ∧
      putStatus (settingsPUT db sess body).1 = 401) ∧
    (∀ u errs, resolveUser sess = some u → validateSettings body = .invalid errs →
      settingsPUT db sess body = (.badRequest errs, db) ∧ errs ≠ []) := by
  constructor
  · intro h
    have heq : settingsPUT db sess body = (.unauthorized, db) := by
      simp only [settingsPUT, requireApiAuth_of_resolve_none h]
    exact ⟨heq, by rw [heq]; rfl⟩
  · intro u errs hu hval
    have heq : settingsPUT db sess body = (.badRequest errs, db) := by
      simp only [settingsPUT, requireApiAuth_of_resolve_some hu, hval]
    exact ⟨heq, validateSettings_invalid_ne_nil body errs hval⟩

/-- Witness for C7: a malformed body (empty name, non-string email) gets 401
with no session and 400 with Alice's session, leaving the table unchanged. -/
theorem c7_witness :
    settingsPUT [aliceAcct] none { name := .str "", email := .nonString } =
      (.unauthorized, [aliceAcct]) ∧
    settingsPUT [aliceAcct] aliceSession { name := .str "", email := .nonString } =
      (.badRequest ["name: invalid", "email: invalid"], [aliceAcct]) := by
  refine ⟨(c7_auth_before_validation [aliceAcct] none
      { name := .str "", email := .nonString }).1 rfl |>.1, ?_⟩
  exact ((c7_auth_before_validation [aliceAcct] aliceSession
      { name := .str "", email := .nonString }).2 aliceUser
      ["name: invalid", "email: invalid"] rfl (by decide)).1

/-- C8: a settings update whose validated email equals the email of a
different existing account is rejected with the 409 conflict response, and
the whole table — both accounts included — is returned unchanged. -/
theorem c8_email_conflict_rejected
    (db : Db) (sess : Option Session) (u : SessionUser) (acct b : Account)
    (e : String) (n : Option String) (body : SettingsBody)
    (hsess : resolveUser sess = some u)
    (hfind : findUser db u.id = some acct)
    (hb : b ∈ db) (hbneq : b.id ≠ u.id) (hbemail : b.email = some e)
    (hval : validateSettings body = .valid n (some e)) :
    settingsPUT db sess body = (.conflict, db) ∧ putStatus .conflict = 409 := by
  have hconf : emailConflict db u.id { name := n, email := some e } = true := by
    unfold emailConflict
    apply List.any_eq_true.mpr
    exact ⟨b, hb, by simp [hbemail, hbneq]⟩
  have hupd : dbUpdateUser db u.id { name := n, email := some e } =
      .error .uniqueConstraint := by
    simp [dbUpdateUser, hfind, hconf]
  refine ⟨?_, rfl⟩
  simp only [settingsPUT, requireApiAuth_of_resolve_some hsess, hval, hupd]

/-- Witness for C8: Alice's session sets her email to Bob's email — 409
conflict, table unchanged. -/
theorem c8_witness :
    settingsPUT [aliceAcct, bobAcct] aliceSession
        { name := .absent, email := .str "bob@example.com" } =
      (.conflict, [aliceAcct, bobAcct]) :=
  (c8_email_conflict_rejected [aliceAcct, bobAcct] aliceSession aliceUser
    aliceAcct bobAcct "bob@example.com" none
    { name := .absent, email := .str "bob@example.com" }
    rfl (by decide) (by decide) (by decide) (by decide) (by decide)).1

/-- C9: each server action is total at its interface: it returns a success
result, or a failure result with the table unchanged — never an escaped
exception; in particular an absent session maps to each action's typed
authentication failure, and a persistence failure (missing row on delete) is
caught and mapped to a failure result. -/
theorem c9_actions_total_and_caught
    (db : Db) (sess : Option Session) (formName : Option String) (now : Int) :
    ((∃ d db', updateProfile db sess formName = (.success d, db')) ∨
      (∃ m, updateProfile db sess formName = (.failure m, db))) ∧
    ((∃ d db', deleteAccount db sess = (.success d, db')) ∨
      (∃ m, deleteAccount db sess = (.failure m, db))) ∧
    ((∃ d, getUserStats db sess now = .success d) ∨
      (∃ m, getUserStats db sess now = .failure m)) ∧
    (resolveUser sess = none →
      updateProfile db sess formName =
        (.failure "You must be signed in to update your profile", db) ∧
      deleteAccount db sess =
        (.failure "You must be signed in to delete your account", db) ∧
      getUserStats db sess now = .failure "You must be signed in to view stats") ∧
    (∀ u, resolveUser sess = some u → findUser db u.id = none →
      deleteAccount db sess =
        (.failure "Failed to delete account. Please try again.", db)) := by
  refine ⟨?_, ?_, ?_, ?_, ?_⟩
  · cases her : requireUser sess with
    | error e =>
      have heq : updateProfile db sess formName =
          (.failure "You must be signed in to update your profile", db) := by
        simp only [updateProfile, her]
      exact Or.inr ⟨_, heq⟩
    | ok u =>
      cases hval : validateProfileName formName with
      | invalid msg =>
        have heq : updateProfile db sess formName = (.failure msg, db) := by
          simp only [updateProfile, her, hval]
        exact Or.inr ⟨msg, heq⟩
      | valid n =>
        cases hupd : dbUpdateUser db u.id { name := some n, email := none } with
        | error e =>
          have heq : updateProfile db sess formName =
              (.failure "Failed to update profile. Please try again.", db) := by
            simp only [updateProfile, her, hval, hupd]
          exact Or.inr ⟨_, heq⟩
        | ok res =>
          obtain ⟨updated, db2⟩ := res
          have heq : updateProfile db sess formName =
              (.success { name := updated.name.getD "", email := updated.email.getD "" },
                db2) := by
            simp only [updateProfile, her, hval, hupd]
          exact Or.inl ⟨_, db2, heq⟩
  · cases her : requireUser sess with
    | error e =>
      have heq : deleteAccount db sess =
          (.failure "You must be signed in to delete your account", db) := by
        simp only [deleteAccount, her]
      exact Or.inr ⟨_, heq⟩
    | ok u =>
      cases hdel : dbDeleteUser db u.id with
      | error e =>
        have heq : deleteAccount db sess =
            (.failure "Failed to delete account. Please try again.", db) := by
          simp only [deleteAccount, her, hdel]
        exact Or.inr ⟨_, heq⟩
      | ok db2 =>
        have heq : deleteAccount db sess = (.success { deleted := true }, db2) := by
          simp only [deleteAccount, her, hdel]
        exact Or.inl ⟨_, db2, heq⟩
  · cases hra : requireAuth sess with
    | error e =>
      have heq : getUserStats db sess now =
          .failure "You must be signed in to view stats" := by
        simp only [getUserStats, hra]
      exact Or.inr ⟨_, heq⟩
    | ok s =>
      cases hu : s.user with
      | none =>
        have heq : getUserStats db sess now = .failure "Failed to fetch stats" := by
          simp only [getUserStats, hra, hu]
        exact Or.inr ⟨_, heq⟩
      | some u =>
        cases hfind : findUser db u.id with
        | none =>
          have heq : getUserStats db sess now = .failure "User not found" := by
            simp only [getUserStats, hra, hu, hfind]
          exact Or.inr ⟨_, heq⟩
        | some acct =>
          have heq : getUserStats db sess now =
              .success { accountAge := Int.fdiv (now - acct.createdAt) 86400000
                         lastSignIn := none } := by
            simp only [getUserStats, hra, hu, hfind]
          exact Or.inl ⟨_, heq⟩
  · intro h
    refine ⟨?_, ?_, ?_⟩
    · simp only [updateProfile, requireUser_of_resolve_none h]
    · simp only [deleteAccount, requireUser_of_resolve_none h]
    · simp only [getUserStats, requireAuth_of_resolve_none h]
  · intro u hu hfind
    simp only [deleteAccount, requireUser_of_resolve_some hu, dbDeleteUser, hfind]

/-- Witness for C9: the three actions with no session return their typed
failures and leave the table unchanged. -/
theorem c9_witness :
    updateProfile [bobAcct] none (some "X") =
      (.failure "You must be signed in to update your profile", [bobAcct]) ∧
    deleteAccount [bobAcct] none =
      (.failure "You must be signed in to delete your account", [bobAcct]) ∧
    getUserStats [bobAcct] none 42 =
      .failure "You must be signed in to view stats" :=
  (c9_actions_total_and_caught [bobAcct] none (some "X") 42).2.2.2.1 rfl

/-- C10: `lastSignIn` is `none` on every successful `getUserStats` call, and
on the success path `accountAge` is the floor of the elapsed whole days
between the account's creation time and now. -/
theorem c10_user_stats_values :
    (∀ (db : Db) (sess : Option Session) (now : Int) (d : StatsData),
      getUserStats db sess now = .success d → d.lastSignIn = none) ∧
    (∀ (db : Db) (sess : Option Session) (u : SessionUser) (acct : Account) (now : Int),
      resolveUser sess = some u → findUser db u.id = some acct →
      getUserStats db sess now =
        .success { accountAge := Int.fdiv (now - acct.createdAt) 86400000
                   lastSignIn := none }) := by
  constructor
  · intro db sess now d h
    cases hra : requireAuth sess with
    | error e =>
      simp only [getUserStats, hra] at h
      exact absurd h (by simp)
    | ok s =>
      cases hu : s.user with
      | none =>
        simp only [getUserStats, hra, hu] at h
        exact absurd h (by simp)
      | some u =>
        cases hfind : findUser db u.id with
        | none =>
          simp only [getUserStats, hra, hu, hfind] at h
          exact absurd h (by simp)
        | some acct =>
          simp only [getUserStats, hra, hu, hfind] at h
          injection h with h'
          rw [← h']
  · intro db sess u acct now hsess hfind
    obtain ⟨s, rfl, hu, hra⟩ := requireAuth_of_resolve_some hsess
    simp only [getUserStats, hra, hu, hfind]

/-- Witness for C10: Alice, created at epoch 0, queried one day plus one
millisecond later, has account age 1 day and no last sign-in. -/
theorem c10_witness :
    getUserStats [aliceAcct] aliceSession 86400001 =
      .success { accountAge := 1, lastSignIn := none } := by
  have h := c10_user_stats_values.2 [aliceAcct] aliceSession aliceUser aliceAcct
    86400001 rfl (by decide)
  simpa using h

end NextStarter
